import Mathlib

/-!
Verification of the authentication-gateway routes of `src/app.py`
(a Flask front-end for the Duo universal-prompt redirect flow).

The five HTTP handlers -- `index`, `login`, `duo_callback`, `dashboard`
and `logout` -- are shallowly embedded as pure Lean functions from a
request environment (the startup configuration error, the external Duo
client's behaviour, the request parameters) and a session state to a
response plus the resulting session state.
-/

/--
A Python value, as far as the gateway inspects one.  The code only
distinguishes mappings (`isinstance(result, dict)`) from everything else,
and applies `str()` to non-mappings; `other` carries the `str()` form of
any non-mapping, non-string value.
-/
inductive PyVal where
  | dict : List (String × PyVal) → PyVal
  | str : String → PyVal
  | other : String → PyVal

/--
The per-browser session mapping.  The gateway reads and writes exactly
four keys: `duo_state`, `duo_username` (the Pending Login),
`authenticated_user` and `auth_result` (the Authenticated Session).
`none` models an absent key.
-/
structure Session where
  duo_state : Option String
  duo_username : Option String
  authenticated_user : Option String
  auth_result : Option PyVal

/-- The empty session, as produced by `session.clear()`. -/
def Session.emptyS : Session := ⟨none, none, none, none⟩

/--
Python truthiness of `session.get(k)` / `request.args.get(k)`:
a missing key (`None`) and the empty string are falsy.
-/
def truthy : Option String → Bool
  | none => false
  | some s => !s.isEmpty

@[simp] theorem truthy_none : truthy none = false := rfl

@[simp] theorem truthy_some (s : String) : truthy (some s) = !s.isEmpty := rfl

/-- Python's `str.strip()`: drop whitespace from both ends. -/
def strip (s : String) : String :=
  String.mk (((s.data.dropWhile Char.isWhitespace).reverse.dropWhile Char.isWhitespace).reverse)

/--
An HTTP response: either `render_template(name, error=...)` with a status
code (200 when the handler returns the template alone), or a `redirect`
to a path.
-/
inductive Response where
  | render : String → Option String → Nat → Response
  | redirect : String → Response
deriving DecidableEq

/-- What a route handler produces: a response and the session it leaves. -/
structure HandlerResult where
  response : Response
  session : Session

/--
The external Duo SDK client (`duo_universal.Client`), modelled by the
outcome of each of the four calls the gateway makes.  A raised exception
is an `Except.error` carrying the exception's message.
-/
structure DuoClient where
  health_check : Except String Unit
  generate_state : String
  create_auth_url : String → String → String
  exchange_authorization_code_for_2fa_result : String → Option String → Except String PyVal

/-- Route `GET /` (`index` in `src/app.py`). -/
def index (config_error : Option String) (s : Session) : HandlerResult :=
  match config_error with
  | some e => ⟨.render "error.html" (some e) 500, s⟩
  | none =>
    if truthy s.authenticated_user then ⟨.redirect "/dashboard", s⟩
    else ⟨.render "login.html" none 200, s⟩

/-- Route `POST /login` (`login` in `src/app.py`). -/
def login (config_error : Option String) (client : DuoClient)
    (form_username : Option String) (s : Session) : HandlerResult :=
  match config_error with
  | some e => ⟨.render "error.html" (some e) 500, s⟩
  | none =>
    let username := strip (form_username.getD "")
    if username.isEmpty then
      ⟨.render "login.html" (some "Username is required.") 200, s⟩
    else
      match client.health_check with
      | .error e =>
        ⟨.render "login.html" (some ("Duo health check failed: " ++ e)) 200, s⟩
      | .ok _ =>
        let st := client.generate_state
        ⟨.redirect (client.create_auth_url username st),
          { s with duo_state := some st, duo_username := some username }⟩

/-- Route `GET /duo-callback` (`duo_callback` in `src/app.py`). -/
def duo_callback (config_error : Option String) (client : DuoClient)
    (duo_code state_param : Option String) (s : Session) : HandlerResult :=
  match config_error with
  | some e => ⟨.render "error.html" (some e) 500, s⟩
  | none =>
    if !truthy duo_code || !truthy state_param then
      ⟨.render "error.html"
        (some "Missing parameters from Duo. Please try logging in again.") 400, s⟩
    else if !truthy s.duo_state || state_param != s.duo_state then
      ⟨.render "error.html"
        (some "State mismatch - possible CSRF attack. Please try logging in again.") 403, s⟩
    else
      match client.exchange_authorization_code_for_2fa_result
          (duo_code.getD "") s.duo_username with
      | .error e =>
        ⟨.render "error.html" (some ("Duo authentication failed: " ++ e)) 401, s⟩
      | .ok result =>
        ⟨.redirect "/dashboard",
          { duo_state := none, duo_username := none,
            authenticated_user := s.duo_username,
            auth_result := some (match result with
              | .dict kvs => (kvs.lookup "response").getD (.dict [])
              | .str v => .str v
              | .other v => .str v) }⟩

/-- Route `GET /dashboard` (`dashboard` in `src/app.py`). -/
def dashboard (config_error : Option String) (s : Session) : HandlerResult :=
  match config_error with
  | some e => ⟨.render "error.html" (some e) 500, s⟩
  | none =>
    if !truthy s.authenticated_user then ⟨.redirect "/", s⟩
    else ⟨.render "dashboard.html" none 200, s⟩

/--
Route `POST /logout` (`logout` in `src/app.py`).  The source handler does
not consult `config_error`: it unconditionally clears the session and
redirects to `/`, so the configuration error is not a parameter here.
-/
def logout (_s : Session) : HandlerResult :=
  ⟨.redirect "/", Session.emptyS⟩

/-- Does a response render the diagnostic error template with HTTP 500? -/
def is500ErrorPage : Response → Bool
  | .render t _ code => t == "error.html" && code == 500
  | _ => false

/-- A stub client whose calls all succeed, for concrete runs. -/
def stubClient : DuoClient :=
  ⟨.ok (), "STATE1",
   fun u st => "https://duo.example/authorize?user=" ++ u ++ "&state=" ++ st,
   fun _ _ => .ok (.dict [("response", .dict [("result", .str "allow")])])⟩

/-- A stub client whose health check and code exchange both fail. -/
def failingClient : DuoClient :=
  ⟨.error "connection refused", "STATE1", fun _ _ => "url",
   fun _ _ => .error "invalid grant"⟩

/--
C1 (amended): with the configuration error set, the routes `/`, `/login`,
`/duo-callback` and `/dashboard` return HTTP 500 with the diagnostic error
page and leave the session untouched, for all request parameters and
client behaviours; `/logout`, however, does not check the error: it
clears the session and redirects to `/` regardless.
-/
theorem claim1_config_error_routes (e : String) (client : DuoClient)
    (u code st : Option String) (s : Session) :
    index (some e) s = ⟨.render "error.html" (some e) 500, s⟩ ∧
    login (some e) client u s = ⟨.render "error.html" (some e) 500, s⟩ ∧
    duo_callback (some e) client code st s = ⟨.render "error.html" (some e) 500, s⟩ ∧
    dashboard (some e) s = ⟨.render "error.html" (some e) 500, s⟩ ∧
    logout s = ⟨.redirect "/", Session.emptyS⟩ :=
  ⟨rfl, rfl, rfl, rfl, rfl⟩

/--
C1 (counterexample to the claim as stated): the `/logout` route never
returns the HTTP 500 diagnostic page -- its handler ignores the
configuration error and answers with a redirect to `/`.
-/
theorem claim1_logout_counterexample :
    (logout Session.emptyS).response = Response.redirect "/" ∧
    is500ErrorPage (logout Session.emptyS).response = false :=
  ⟨rfl, rfl⟩

/--
C2: a `/duo-callback` request carrying both `duo_code` and `state`, when
the session holds no (truthy) stored nonce or the `state` parameter
differs from it, yields HTTP 403 with the anti-CSRF error, leaves the
session unchanged, and never invokes the code exchange (the outcome is
the same for every exchange function).
-/
theorem claim2_csrf (client : DuoClient) (code st : Option String) (s : Session)
    (hc : truthy code = true) (hs : truthy st = true)
    (hmis : truthy s.duo_state = false ∨ st ≠ s.duo_state) :
    duo_callback none client code st s =
      ⟨.render "error.html"
        (some "State mismatch - possible CSRF attack. Please try logging in again.") 403, s⟩ ∧
    ∀ ex, duo_callback none
        { client with exchange_authorization_code_for_2fa_result := ex } code st s =
      duo_callback none client code st s := by
  have hguard : (!truthy s.duo_state || st != s.duo_state) = true := by
    rcases hmis with h | h
    · simp [h]
    · simp [bne_iff_ne, h]
  constructor
  · simp [duo_callback, hc, hs, hguard]
  · intro ex
    simp [duo_callback, hc, hs, hguard]

/-- C2 witness: concrete run with no stored nonce in the session. -/
theorem claim2_csrf_witness :
    truthy (some "CODE") = true ∧ truthy (some "WRONG") = true ∧
    (truthy Session.emptyS.duo_state = false ∨
      (some "WRONG" : Option String) ≠ Session.emptyS.duo_state) ∧
    duo_callback none stubClient (some "CODE") (some "WRONG") Session.emptyS =
      ⟨.render "error.html"
        (some "State mismatch - possible CSRF attack. Please try logging in again.") 403,
        Session.emptyS⟩ :=
  ⟨by decide, by decide, Or.inl (by decide),
    (claim2_csrf stubClient (some "CODE") (some "WRONG") Session.emptyS
      (by decide) (by decide) (Or.inl (by decide))).1⟩

/--
C3: a `/duo-callback` request that passes the parameter and state checks
but whose code exchange fails yields HTTP 401 carrying the provider's
error message, and the session is left exactly as it was (the Pending
Login keys remain, nothing is promoted).
-/
theorem claim3_exchange_failure (client : DuoClient) (code st : Option String)
    (s : Session) (e : String)
    (hc : truthy code = true) (hs : truthy st = true)
    (hst : truthy s.duo_state = true) (heq : st = s.duo_state)
    (hex : client.exchange_authorization_code_for_2fa_result
        (code.getD "") s.duo_username = .error e) :
    duo_callback none client code st s =
      ⟨.render "error.html" (some ("Duo authentication failed: " ++ e)) 401, s⟩ := by
  simp [duo_callback, hc, hs, hst, heq, hex]

/-- C3 witness: concrete run where the exchange raises. -/
theorem claim3_exchange_failure_witness :
    truthy (some "CODE") = true ∧ truthy (some "STATE1") = true ∧
    truthy (Session.mk (some "STATE1") (some "alice") none none).duo_state = true ∧
    (some "STATE1" : Option String) =
      (Session.mk (some "STATE1") (some "alice") none none).duo_state ∧
    duo_callback none failingClient (some "CODE") (some "STATE1")
        (Session.mk (some "STATE1") (some "alice") none none) =
      ⟨.render "error.html" (some ("Duo authentication failed: " ++ "invalid grant")) 401,
        Session.mk (some "STATE1") (some "alice") none none⟩ :=
  ⟨by decide, by decide, by decide, rfl,
    claim3_exchange_failure failingClient (some "CODE") (some "STATE1")
      (Session.mk (some "STATE1") (some "alice") none none) "invalid grant"
      (by decide) (by decide) (by decide) rfl rfl⟩

/--
C6: a `/duo-callback` request (no configuration error) in which
`duo_code` or `state` is absent (or empty, which the code treats the
same) yields HTTP 400 with the generic try-again error and does not
touch the session.
-/
theorem claim6_missing_params (client : DuoClient) (code st : Option String)
    (s : Session) (h : truthy code = false ∨ truthy st = false) :
    duo_callback none client code st s =
      ⟨.render "error.html"
        (some "Missing parameters from Duo. Please try logging in again.") 400, s⟩ := by
  have hguard : (!truthy code || !truthy st) = true := by
    rcases h with h | h <;> simp [h]
  simp [duo_callback, hguard]

/-- C6 witness: concrete run with `duo_code` absent. -/
theorem claim6_missing_params_witness :
    (truthy none = false ∨ truthy (some "STATE1") = false) ∧
    duo_callback none stubClient none (some "STATE1") Session.emptyS =
      ⟨.render "error.html"
        (some "Missing parameters from Duo. Please try logging in again.") 400,
        Session.emptyS⟩ :=
  ⟨Or.inl (by decide),
    claim6_missing_params stubClient none (some "STATE1") Session.emptyS
      (Or.inl (by decide))⟩

/--
C4: starting from `/login` with a username whose trimmed form is
non-empty, a healthy provider and a non-empty generated nonce, a
`/duo-callback` carrying a truthy `duo_code` and the same nonce whose
exchange succeeds leaves a session with both Pending Login keys absent,
`authenticated_user` equal to the username stored at `/login`, and the
response is a redirect to the dashboard.
-/
theorem claim4_success_promotion (client : DuoClient) (u : String) (s : Session)
    (code : Option String) (result : PyVal)
    (hu : (strip u).isEmpty = false)
    (hh : client.health_check = .ok ())
    (hg : client.generate_state.isEmpty = false)
    (hc : truthy code = true)
    (hex : client.exchange_authorization_code_for_2fa_result
        (code.getD "") (some (strip u)) = .ok result) :
    ((duo_callback none client code (some client.generate_state)
        (login none client (some u) s).session).session.duo_state = none) ∧
    ((duo_callback none client code (some client.generate_state)
        (login none client (some u) s).session).session.duo_username = none) ∧
    ((duo_callback none client code (some client.generate_state)
        (login none client (some u) s).session).session.authenticated_user
      = some (strip u)) ∧
    ((duo_callback none client code (some client.generate_state)
        (login none client (some u) s).session).response = .redirect "/dashboard") := by
  cases result <;> simp [login, duo_callback, hu, hh, hg, hc, hex]

/-- C4 witness: the spec scenario with user alice and a stubbed exchange. -/
theorem claim4_success_promotion_witness :
    ((strip "alice").isEmpty = false) ∧
    (stubClient.health_check = .ok ()) ∧
    (stubClient.generate_state.isEmpty = false) ∧
    (truthy (some "ABC") = true) ∧
    (stubClient.exchange_authorization_code_for_2fa_result "ABC" (some (strip "alice")) =
      .ok (.dict [("response", .dict [("result", .str "allow")])])) ∧
    ((duo_callback none stubClient (some "ABC") (some stubClient.generate_state)
        (login none stubClient (some "alice") Session.emptyS).session).session.authenticated_user
      = some (strip "alice")) :=
  ⟨by decide, rfl, by decide, by decide, rfl,
    (claim4_success_promotion stubClient "alice" Session.emptyS (some "ABC")
      (.dict [("response", .dict [("result", .str "allow")])])
      (by decide) rfl (by decide) (by decide) rfl).2.2.1⟩

/--
C5 (counterexample to the claim as stated): the exchange result is a
mapping, yet the gateway does not store the whole mapping verbatim --
with the session holding nonce STATE1 for alice and an exchange returning
the mapping with the single key x, the stored `auth_result` is the empty
mapping (the missing `response` entry's default), not the result itself.
-/
theorem claim5_counterexample :
    ((duo_callback none
        ⟨.ok (), "STATE1", fun _ _ => "url",
          fun _ _ => .ok (.dict [("x", .str "y")])⟩
        (some "CODE") (some "STATE1")
        (Session.mk (some "STATE1") (some "alice") none none)).session.auth_result
      = some (PyVal.dict [])) ∧
    PyVal.dict [] ≠ PyVal.dict [("x", PyVal.str "y")] :=
  ⟨rfl, by simp⟩

/--
C5 (amended): on a successful exchange the gateway stores, with no
further interpretation, the `response` entry of the result when the
result is a mapping (the empty mapping when that entry is absent), and
the string form of the result when it is not a mapping.
-/
theorem claim5_stored_payload (client : DuoClient) (code st : Option String)
    (s : Session) (result : PyVal)
    (hc : truthy code = true) (hs : truthy st = true)
    (hst : truthy s.duo_state = true) (heq : st = s.duo_state)
    (hex : client.exchange_authorization_code_for_2fa_result
        (code.getD "") s.duo_username = .ok result) :
    (duo_callback none client code st s).session.auth_result =
      some (match result with
        | .dict kvs => (kvs.lookup "response").getD (.dict [])
        | .str v => .str v
        | .other v => .str v) := by
  cases result <;> simp [duo_callback, hc, hs, hst, heq, hex]

/-- C5 witness: a non-mapping result is stored as its string form. -/
theorem claim5_stored_payload_witness :
    (truthy (some "CODE") = true) ∧ (truthy (some "STATE1") = true) ∧
    (truthy (Session.mk (some "STATE1") (some "alice") none none).duo_state = true) ∧
    ((duo_callback none
        ⟨.ok (), "STATE1", fun _ _ => "url", fun _ _ => .ok (.other "[1, 2]")⟩
        (some "CODE") (some "STATE1")
        (Session.mk (some "STATE1") (some "alice") none none)).session.auth_result
      = some (PyVal.str "[1, 2]")) :=
  ⟨by decide, by decide, by decide,
    claim5_stored_payload
      ⟨.ok (), "STATE1", fun _ _ => "url", fun _ _ => .ok (.other "[1, 2]")⟩
      (some "CODE") (some "STATE1")
      (Session.mk (some "STATE1") (some "alice") none none) (.other "[1, 2]")
      (by decide) (by decide) (by decide) rfl rfl⟩

/--
C7: a `POST /login` with no configuration error re-renders the login form
with an error and leaves the session untouched (no Pending Login is
created) both when the trimmed username is empty and when the provider
health check fails.
-/
theorem claim7_login_failures (client : DuoClient) (u : Option String) (s : Session) :
    ((strip (u.getD "")).isEmpty = true →
      login none client u s =
        ⟨.render "login.html" (some "Username is required.") 200, s⟩) ∧
    (∀ e, (strip (u.getD "")).isEmpty = false → client.health_check = .error e →
      login none client u s =
        ⟨.render "login.html" (some ("Duo health check failed: " ++ e)) 200, s⟩) := by
  constructor
  · intro h
    simp [login, h]
  · intro e h hhc
    simp [login, h, hhc]

/--
C7 witness: a whitespace-only username re-renders with the validation
error, and a non-empty username against an unhealthy provider re-renders
with the provider error; the session is unchanged in both runs.
-/
theorem claim7_login_failures_witness :
    (((strip "  ").isEmpty = true) ∧
      login none failingClient (some "  ") Session.emptyS =
        ⟨.render "login.html" (some "Username is required.") 200, Session.emptyS⟩) ∧
    (((strip " bob ").isEmpty = false) ∧
      failingClient.health_check = .error "connection refused" ∧
      login none failingClient (some " bob ") Session.emptyS =
        ⟨.render "login.html"
          (some ("Duo health check failed: " ++ "connection refused")) 200,
          Session.emptyS⟩) :=
  ⟨⟨by decide,
    (claim7_login_failures failingClient (some "  ") Session.emptyS).1 (by decide)⟩,
   ⟨by decide, rfl,
    (claim7_login_failures failingClient (some " bob ") Session.emptyS).2
      "connection refused" (by decide) rfl⟩⟩

/--
C8 (amended): `POST /logout` unconditionally clears all session state
(Pending Login and Authenticated Session alike) and redirects to `/`; it
is idempotent (a second call from the cleared session gives the same
result); and, when no configuration error is set, a `/dashboard` request
immediately after logout redirects to `/`.
-/
theorem claim8_logout (s : Session) :
    logout s = ⟨.redirect "/", Session.emptyS⟩ ∧
    logout (logout s).session = logout s ∧
    (dashboard none (logout s).session).response = .redirect "/" :=
  ⟨rfl, rfl, rfl⟩

/--
C8 (counterexample to the claim as stated): with the configuration error
set, `/dashboard` immediately after `/logout` answers HTTP 500 with the
diagnostic page, not a redirect to `/`.
-/
theorem claim8_counterexample :
    (dashboard (some "config.json not found. Please create it from the template.")
        (logout Session.emptyS).session).response =
      .render "error.html"
        (some "config.json not found. Please create it from the template.") 500 ∧
    Response.render "error.html"
        (some "config.json not found. Please create it from the template.") 500 ≠
      Response.redirect "/" :=
  ⟨rfl, by decide⟩

/-- `GET /` never changes the session. -/
theorem index_session (ce : Option String) (s : Session) : (index ce s).session = s := by
  cases ce with
  | some e => rfl
  | none => by_cases h : truthy s.authenticated_user = true <;> simp [index, h]

/-- `GET /dashboard` never changes the session. -/
theorem dashboard_session (ce : Option String) (s : Session) :
    (dashboard ce s).session = s := by
  cases ce with
  | some e => rfl
  | none => by_cases h : truthy s.authenticated_user = true <;> simp [dashboard, h]

/--
The session states reachable from a fresh (empty) session through the
five routes, under arbitrary configuration state, request parameters and
client behaviours.
-/
inductive Reachable : Session → Prop where
  | init : Reachable Session.emptyS
  | step_index (ce : Option String) (s : Session) :
      Reachable s → Reachable (index ce s).session
  | step_login (ce : Option String) (client : DuoClient) (u : Option String)
      (s : Session) : Reachable s → Reachable (login ce client u s).session
  | step_callback (ce : Option String) (client : DuoClient) (code st : Option String)
      (s : Session) : Reachable s → Reachable (duo_callback ce client code st s).session
  | step_dashboard (ce : Option String) (s : Session) :
      Reachable s → Reachable (dashboard ce s).session
  | step_logout (s : Session) : Reachable s → Reachable (logout s).session

/--
C9: in every session state reachable through the five routes, the two
Pending Login keys are present or absent together: the session contains
`duo_state` if and only if it contains `duo_username`.
-/
theorem claim9_pending_keys_together (s : Session) (h : Reachable s) :
    s.duo_state.isSome ↔ s.duo_username.isSome := by
  induction h with
  | init => simp [Session.emptyS]
  | step_index ce s' hr ih => rw [index_session]; exact ih
  | step_dashboard ce s' hr ih => rw [dashboard_session]; exact ih
  | step_logout s' hr ih => simp [logout, Session.emptyS]
  | step_login ce client u s' hr ih =>
    cases ce with
    | some e => exact ih
    | none =>
      cases hu : (strip (u.getD "")).isEmpty with
      | true => simpa [login, hu] using ih
      | false =>
        cases hh : client.health_check with
        | error e => simpa [login, hu, hh] using ih
        | ok v => simp [login, hu, hh]
  | step_callback ce client code st s' hr ih =>
    cases ce with
    | some e => exact ih
    | none =>
      cases h1 : (!truthy code || !truthy st) with
      | true => simpa [duo_callback, h1] using ih
      | false =>
        cases h2 : (!truthy s'.duo_state || st != s'.duo_state) with
        | true => simpa [duo_callback, h1, h2] using ih
        | false =>
          cases hex : client.exchange_authorization_code_for_2fa_result
              (code.getD "") s'.duo_username with
          | error e => simpa [duo_callback, h1, h2, hex] using ih
          | ok r => cases r <;> simp [duo_callback, h1, h2, hex]

/-- C9 witness: the invariant at the state reached by one `/login` step. -/
theorem claim9_pending_keys_together_witness :
    ((login none stubClient (some "alice") Session.emptyS).session.duo_state.isSome ↔
     (login none stubClient (some "alice") Session.emptyS).session.duo_username.isSome) :=
  claim9_pending_keys_together _
    (Reachable.step_login none stubClient (some "alice") Session.emptyS Reachable.init)

/--
C10: `POST /login` never touches the Authenticated Session keys --
`authenticated_user` and `auth_result` are unchanged on every path -- and
on its success path it writes a fresh Pending Login, so a session that
was already authenticated is afterwards simultaneously Authenticated and
PendingLogin.
-/
theorem claim10_login_frame (client : DuoClient) (u : Option String) (s : Session)
    (ha : truthy s.authenticated_user = true) :
    ((login none client u s).session.authenticated_user = s.authenticated_user ∧
     (login none client u s).session.auth_result = s.auth_result) ∧
    ((strip (u.getD "")).isEmpty = false → client.health_check = .ok () →
      (login none client u s).session.duo_state = some client.generate_state ∧
      (login none client u s).session.duo_username = some (strip (u.getD "")) ∧
      truthy (login none client u s).session.authenticated_user = true) := by
  constructor
  · cases hu : (strip (u.getD "")).isEmpty with
    | true => simp [login, hu]
    | false =>
      cases hh : client.health_check with
      | error e => simp [login, hu, hh]
      | ok v => simp [login, hu, hh]
  · intro hu hh
    simp [login, hu, hh, ha]

/-- C10 witness: an authenticated alice session submitting `/login` as bob. -/
theorem claim10_login_frame_witness :
    (truthy (Session.mk none none (some "alice") (some (PyVal.str "r"))).authenticated_user
      = true) ∧
    ((strip "bob").isEmpty = false) ∧
    ((login none stubClient (some "bob")
        (Session.mk none none (some "alice") (some (PyVal.str "r")))).session.authenticated_user
      = (Session.mk none none (some "alice") (some (PyVal.str "r"))).authenticated_user) ∧
    ((login none stubClient (some "bob")
        (Session.mk none none (some "alice") (some (PyVal.str "r")))).session.duo_state
      = some stubClient.generate_state) :=
  ⟨by decide, by decide,
    (claim10_login_frame stubClient (some "bob")
      (Session.mk none none (some "alice") (some (PyVal.str "r"))) (by decide)).1.1,
    ((claim10_login_frame stubClient (some "bob")
      (Session.mk none none (some "alice") (some (PyVal.str "r"))) (by decide)).2
      (by decide) rfl).1⟩
